import Mathlib

/-!
# Verification of `lib/stroke.py` (MyPaint stroke recording/replay)

Shallow embedding of the `Stroke` class from `lib/stroke.py`.  Python floats
(IEEE-754 binary64) are modelled by their 64-bit bit patterns (`Nat < 2^64`);
the float32 brush-state snapshot is modelled as a list of 32-bit patterns.
Byte strings are `List Nat` (each element a byte value).  Python exceptions
are modelled by the `PyError` type; every mutating method returns the new
object state together with `Option PyError` (a raised exception), mirroring
Python's mutate-then-maybe-raise semantics.  Attributes that are created or
deleted dynamically (`brush`, `tmp_event_list`, `stroke_data`, ...) are
`Option`-valued; reading an absent one raises `attributeError`.
-/

namespace MyPaintStroke

/-- Python exception classes that the code in `stroke.py` can raise.
`assertionError` is what a failing `assert` raises; `valueError` is what
`numpy.fromstring` / reshape raise on size mismatch; `indexError` is raised
by indexing an empty string; `attributeError` by reading a missing
attribute; `engineError` stands for an arbitrary exception escaping the
brush engine's `stroke_to` during replay. -/
inductive PyError where
  | assertionError
  | valueError
  | indexError
  | attributeError
  | engineError
  deriving DecidableEq, Repr

/-- Little-endian byte serialization of a natural number into `k` bytes,
modelling how an IEEE-754 value's bit pattern is laid out in memory by
`numpy.tostring` (x86 little-endian). -/
def natToBytesLE : Nat → Nat → List Nat
  | 0, _ => []
  | k + 1, n => n % 256 :: natToBytesLE k (n / 256)

/-- Little-endian byte deserialization, inverse of `natToBytesLE`. -/
def bytesToNatLE : List Nat → Nat
  | [] => 0
  | b :: bs => b + 256 * bytesToNatLE bs

/-- One recorded input sample `(dtime, x, y, pressure, xtilt, ytilt)` as
appended by `Stroke.record_event`.  Each field is the 64-bit bit pattern of
the corresponding Python float. -/
structure Event where
  dtime : Nat
  x : Nat
  y : Nat
  pressure : Nat
  xtilt : Nat
  ytilt : Nat
  deriving DecidableEq, Repr

/-- All six bit patterns fit in 64 bits (true of every Python float). -/
def Event.wf (e : Event) : Prop :=
  e.dtime < 2 ^ 64 ∧ e.x < 2 ^ 64 ∧ e.y < 2 ^ 64 ∧
    e.pressure < 2 ^ 64 ∧ e.xtilt < 2 ^ 64 ∧ e.ytilt < 2 ^ 64

instance (e : Event) : Decidable e.wf := by
  unfold Event.wf; infer_instance

/-- Byte encoding of one sample row: six consecutive 8-byte doubles in field
order `(dtime, x, y, pressure, xtilt, ytilt)`, as produced by
`numpy.array(tmp_event_list, dtype='float64').tostring()` for one row. -/
def encodeEvent (e : Event) : List Nat :=
  natToBytesLE 8 e.dtime ++ natToBytesLE 8 e.x ++ natToBytesLE 8 e.y ++
    natToBytesLE 8 e.pressure ++ natToBytesLE 8 e.xtilt ++ natToBytesLE 8 e.ytilt

/-- Row-major byte encoding of the whole sample buffer (no padding, no
length prefix), as produced by `numpy.tostring` on the (n,6) float64 array. -/
def encodeEvents : List Event → List Nat
  | [] => []
  | e :: es => encodeEvent e ++ encodeEvents es

/-- Model of `numpy.fromstring(data, dtype='float64')` on a byte string whose length
is a multiple of 8: reinterpret consecutive 8-byte groups as doubles.
Trailing groups of fewer than 8 bytes cannot occur on the lengths the code
feeds it (the length check is made by the caller `parseStrokeData`). -/
def decodeDoubles : List Nat → List Nat
  | b0 :: b1 :: b2 :: b3 :: b4 :: b5 :: b6 :: b7 :: rest =>
      bytesToNatLE [b0, b1, b2, b3, b4, b5, b6, b7] :: decodeDoubles rest
  | _ => []

/-- Reshaping a flat list of doubles into rows of 6, modelling
`data.shape = (len(data)/6, 6)`.  Only applied when the length is a
multiple of 6 (checked by the caller). -/
def group6 : List Nat → List Event
  | d :: x :: y :: p :: xt :: yt :: rest =>
      { dtime := d, x := x, y := y, pressure := p, xtilt := xt, ytilt := yt } ::
        group6 rest
  | _ => []

/-- The byte value of the ASCII character `2`, the format-version tag. -/
def versionTag : Nat := 50

/-- The decode phase of `Stroke.render` (lines 87-90 of `stroke.py`):
`version, data = stroke_data[0], stroke_data[1:]`; `assert version=='2'`
(an `AssertionError` on mismatch); `numpy.fromstring(data, 'float64')`
(a `ValueError` if the byte length is not a multiple of 8);
`data.shape = (len(data)/6, 6)` with truncating division (a `ValueError`
if the number of doubles is not a multiple of 6). -/
def parseStrokeData (blob : List Nat) : Except PyError (List Event) :=
  match blob with
  | [] => .error .indexError
  | v :: data =>
    if v = versionTag then
      if data.length % 8 = 0 then
        let ds := decodeDoubles data
        if ds.length % 6 = 0 then .ok (group6 ds) else .error .valueError
      else .error .valueError
    else .error .assertionError

/-- The `brushinfo` object of a brush: `save_to_string()` yields the
serialized settings; `get_string_property("parent_brush_name")` yields the
parent preset name. -/
structure BrushInfo where
  settings : String
  parent_brush_name : String
  deriving DecidableEq, Repr

/-- The live brush engine borrowed during recording.  `state` is the
`get_state()` float32 array (32-bit patterns), `state_dtype` its numpy
dtype string (asserted to be `float32`), and
`total_stroke_painting_time` the 64-bit pattern returned by
`get_total_stroke_painting_time()` when the stroke is stopped. -/
structure Brush where
  brushinfo : BrushInfo
  state : List Nat
  state_dtype : String
  total_stroke_painting_time : Nat
  deriving DecidableEq, Repr

/-- The attribute state of one `Stroke` object.  `finished` and
`serial_number` are set in `__init__`; everything else appears (or is
deleted) during the lifecycle, hence `Option`.  `serial_attr` is the
per-instance `_SERIAL_NUMBER` attribute that `self._SERIAL_NUMBER += 1`
creates, shadowing the class attribute. -/
structure StrokeState where
  finished : Bool
  serial_number : Nat
  serial_attr : Nat
  brush_settings : Option String := none
  brush_name : Option String := none
  brush_state : Option (List Nat) := none
  brush : Option Brush := none
  tmp_event_list : Option (List Event) := none
  stroke_data : Option (List Nat) := none
  total_painting_time : Option Nat := none
  deriving DecidableEq, Repr

/-- The class-level state of `Stroke`: the class attribute
`_SERIAL_NUMBER`, initially `0`. -/
structure StrokeClass where
  _SERIAL_NUMBER : Nat
  deriving DecidableEq, Repr

/-- The class state of a fresh process: `_SERIAL_NUMBER = 0`
(line 23 of `stroke.py`). -/
def initClass : StrokeClass := { _SERIAL_NUMBER := 0 }

/-- Model of `Stroke.__init__` (lines 25-30).  `self._SERIAL_NUMBER += 1` reads the
attribute through the instance — the instance has none yet, so the CLASS
attribute is read — and the write creates an INSTANCE attribute; the class
attribute is never modified.  Returns the new instance together with the
(unchanged) class state. -/
def Stroke.init (cls : StrokeClass) : StrokeState × StrokeClass :=
  let n := cls._SERIAL_NUMBER + 1
  ({ finished := false, serial_number := n, serial_attr := n }, cls)

/-- Model of `Stroke.start_recording` (lines 32-46).  `assert not self.finished`;
capture `brush_settings` and `brush_name` from `brush.brushinfo`; then
`assert states.dtype == 'float32'` (note the settings were already stored
when this assert fires); snapshot the state, retain the brush reference and
initialize an empty `tmp_event_list`. -/
def start_recording (s : StrokeState) (b : Brush) :
    StrokeState × Option PyError :=
  if s.finished then (s, some .assertionError)
  else
    let s1 := { s with brush_settings := some b.brushinfo.settings,
                       brush_name := some b.brushinfo.parent_brush_name }
    if b.state_dtype ≠ "float32" then (s1, some .assertionError)
    else
      ({ s1 with brush_state := some b.state,
                 brush := some b,
                 tmp_event_list := some ([] : List Event) }, none)

/-- Model of `Stroke.record_event` (lines 48-50): `assert not self.finished`, then
append the 6-tuple verbatim to `tmp_event_list`. -/
def record_event (s : StrokeState) (e : Event) :
    StrokeState × Option PyError :=
  if s.finished then (s, some .assertionError)
  else
    match s.tmp_event_list with
    | none => (s, some .attributeError)
    | some l => ({ s with tmp_event_list := some (l ++ [e]) }, none)

/-- Model of `Stroke.stop_recording` (lines 52-68): early return when already
finished; otherwise serialize `tmp_event_list` as float64 bytes prefixed by
the version byte `'2'`, capture the total painting time from the borrowed
brush, delete `brush` and `tmp_event_list`, and set `finished`. -/
def stop_recording (s : StrokeState) : StrokeState × Option PyError :=
  if s.finished then (s, none)
  else
    match s.tmp_event_list, s.brush with
    | some l, some b =>
        ({ s with stroke_data := some (versionTag :: encodeEvents l),
                  total_painting_time := some b.total_stroke_painting_time,
                  brush := none,
                  tmp_event_list := none,
                  finished := true }, none)
    | _, _ => (s, some .attributeError)

/-- IEEE-754 equality of a float64 bit pattern with zero: true exactly for
the encodings of `+0.0` and `-0.0` (Python `x == 0`). -/
def f64EqZero (bits : Nat) : Bool :=
  bits = 0 || bits = 2 ^ 63

/-- Model of `Stroke.is_empty` (lines 70-71): `return self.total_painting_time == 0`.
Reading the attribute before it exists raises `AttributeError`. -/
def is_empty (s : StrokeState) : Except PyError Bool :=
  match s.total_painting_time with
  | none => .error .attributeError
  | some t => .ok (f64EqZero t)

/-- One call observed on the target surface (or its backend) during
`Stroke.render`: `surface.begin_atomic()`, `b.stroke_to(surface.backend,
x, y, pressure, xtilt, ytilt, dtime)`, `surface.end_atomic()`. -/
inductive SurfaceCall where
  | begin_atomic
  | stroke_to (e : Event)
  | end_atomic
  deriving DecidableEq, Repr

/-- The replay loop of `render` (lines 93-94): feed each decoded row in
order to `stroke_to`.  `failAt i = true` means the `i`-th `stroke_to`
call raises (an engine error); the loop then aborts with that exception,
having emitted the calls made so far. -/
def replayLoop : List Event → (Nat → Bool) → Nat →
    List SurfaceCall × Option PyError
  | [], _, _ => ([], none)
  | e :: es, failAt, i =>
      if failAt i then ([], some .engineError)
      else
        (SurfaceCall.stroke_to e :: (replayLoop es failAt (i + 1)).1,
          (replayLoop es failAt (i + 1)).2)

/-- Model of `Stroke.render` (lines 75-95): `assert self.finished`; rebuild a brush
from `brush_settings`, restore its state from `brush_state`; parse
`stroke_data` (version tag, float64 decode, reshape to rows of 6); then
`surface.begin_atomic()`, the replay loop, `surface.end_atomic()`.  There
is no try/finally: if a `stroke_to` call raises, `end_atomic` is NOT
executed.  Returns the sequence of surface calls made and the exception
propagated, if any. -/
def render (s : StrokeState) (failAt : Nat → Bool) :
    List SurfaceCall × Option PyError :=
  if ¬s.finished then ([], some .assertionError)
  else
    match s.brush_settings, s.brush_state with
    | some _, some _ =>
      match s.stroke_data with
      | none => ([], some .attributeError)
      | some blob =>
        match parseStrokeData blob with
        | .error e => ([], some e)
        | .ok events =>
          match (replayLoop events failAt 0).2 with
          | some e =>
              (SurfaceCall.begin_atomic :: (replayLoop events failAt 0).1,
                some e)
          | none =>
              (SurfaceCall.begin_atomic :: (replayLoop events failAt 0).1
                  ++ [SurfaceCall.end_atomic],
                none)
    | _, _ => ([], some .attributeError)

/-- Model of `Stroke.copy_using_different_brush` (lines 97-108):
`assert self.finished`; `clone = Stroke()` then
`clone.__dict__.update(self.__dict__)` — every attribute of the clone,
`serial_number` included, is overwritten by the source's (the fresh
instance has no attribute the finished source lacks) — then
`brush_settings` and `brush_name` are replaced from the given `brushinfo`.
Returns the clone; the source object is not written to.  Because the
`__dict__.update` replaces every attribute of the fresh clone with the
source's, the result does not depend on the class state the fresh clone was
constructed under, and is exactly the source state with the two brush
fields substituted. -/
def copy_using_different_brush (s : StrokeState) (bi : BrushInfo) :
    Except PyError StrokeState :=
  if ¬s.finished then .error .assertionError
  else
    .ok { s with brush_settings := some bi.settings,
                 brush_name := some bi.parent_brush_name }

/-- Feeding a whole list of samples through `record_event`, aborting at the
first raised exception (as a Python caller would). -/
def record_events (s : StrokeState) : List Event → StrokeState × Option PyError
  | [] => (s, none)
  | e :: es =>
      match record_event s e with
      | (s1, none) => record_events s1 es
      | r => r

/-! ## Lemmas about the byte-level encoding -/

theorem natToBytesLE_length (k n : Nat) : (natToBytesLE k n).length = k := by
  induction k generalizing n with
  | zero => rfl
  | succ k ih => simp [natToBytesLE, ih]

theorem bytesToNatLE_natToBytesLE (k n : Nat) :
    bytesToNatLE (natToBytesLE k n) = n % 256 ^ k := by
  induction k generalizing n with
  | zero => simp [natToBytesLE, bytesToNatLE, Nat.mod_one]
  | succ k ih =>
      simp only [natToBytesLE, bytesToNatLE, ih]
      conv_rhs => rw [pow_succ, mul_comm, Nat.mod_mul]

theorem decodeDoubles_cons8 (n : Nat) (rest : List Nat) :
    decodeDoubles (natToBytesLE 8 n ++ rest)
      = bytesToNatLE (natToBytesLE 8 n) :: decodeDoubles rest := rfl

theorem decodeDoubles_double (n : Nat) (h : n < 2 ^ 64) (rest : List Nat) :
    decodeDoubles (natToBytesLE 8 n ++ rest) = n :: decodeDoubles rest := by
  rw [decodeDoubles_cons8, bytesToNatLE_natToBytesLE]
  have h256 : (256 : Nat) ^ 8 = 2 ^ 64 := by norm_num
  rw [h256, Nat.mod_eq_of_lt h]

/-- The six doubles of one row, in stored field order. -/
def eventDoubles (e : Event) : List Nat :=
  [e.dtime, e.x, e.y, e.pressure, e.xtilt, e.ytilt]

/-- The flat list of doubles of the whole sample buffer. -/
def eventsDoubles : List Event → List Nat
  | [] => []
  | e :: es => eventDoubles e ++ eventsDoubles es

theorem decodeDoubles_encodeEvent (e : Event) (he : e.wf) (rest : List Nat) :
    decodeDoubles (encodeEvent e ++ rest)
      = eventDoubles e ++ decodeDoubles rest := by
  obtain ⟨h1, h2, h3, h4, h5, h6⟩ := he
  simp only [encodeEvent, List.append_assoc]
  rw [decodeDoubles_double _ h1, decodeDoubles_double _ h2,
    decodeDoubles_double _ h3, decodeDoubles_double _ h4,
    decodeDoubles_double _ h5, decodeDoubles_double _ h6]
  rfl

theorem decodeDoubles_encodeEvents (es : List Event) (h : ∀ e ∈ es, e.wf) :
    decodeDoubles (encodeEvents es) = eventsDoubles es := by
  induction es with
  | nil => rfl
  | cons e es ih =>
      have he : e.wf := h e (List.mem_cons_self e es)
      have hs : ∀ e' ∈ es, e'.wf := fun e' h' => h e' (List.mem_cons_of_mem _ h')
      simpa [encodeEvents, eventsDoubles, ih hs] using
        decodeDoubles_encodeEvent e he (encodeEvents es)

theorem group6_eventsDoubles (es : List Event) :
    group6 (eventsDoubles es) = es := by
  induction es with
  | nil => rfl
  | cons e es ih => simp [eventsDoubles, eventDoubles, group6, ih]

theorem encodeEvent_length (e : Event) : (encodeEvent e).length = 48 := by
  simp [encodeEvent, natToBytesLE_length]

theorem encodeEvents_length (es : List Event) :
    (encodeEvents es).length = 48 * es.length := by
  induction es with
  | nil => rfl
  | cons e es ih => simp [encodeEvents, encodeEvent_length, ih]; ring

theorem eventsDoubles_length (es : List Event) :
    (eventsDoubles es).length = 6 * es.length := by
  induction es with
  | nil => rfl
  | cons e es ih => simp [eventsDoubles, eventDoubles, ih]; ring

/-- Decoding the exact blob laid down by `stop_recording` recovers the
recorded samples. -/
theorem parseStrokeData_encode (es : List Event) (h : ∀ e ∈ es, e.wf) :
    parseStrokeData (versionTag :: encodeEvents es) = .ok es := by
  have h8 : (encodeEvents es).length % 8 = 0 := by
    rw [encodeEvents_length]; omega
  have hd := decodeDoubles_encodeEvents es h
  have h6 : (eventsDoubles es).length % 6 = 0 := by
    rw [eventsDoubles_length]; omega
  simp [parseStrokeData, h8, h6, hd, group6_eventsDoubles]

/-! ## Lemmas about the lifecycle state machine and the replay loop -/

theorem record_events_ok (es : List Event) (s : StrokeState) (l : List Event)
    (hf : s.finished = false) (hl : s.tmp_event_list = some l) :
    record_events s es = ({ s with tmp_event_list := some (l ++ es) }, none) := by
  induction es generalizing s l with
  | nil =>
      cases s
      simp_all [record_events]
  | cons e es ih =>
      have h1 : record_event s e
          = ({ s with tmp_event_list := some (l ++ [e]) }, none) := by
        simp [record_event, hf, hl]
      have h2 := ih { s with tmp_event_list := some (l ++ [e]) } (l ++ [e])
        (by simpa using hf) rfl
      simp [record_events, h1, h2]

theorem decodeDoubles_length (bs : List Nat) :
    (decodeDoubles bs).length = bs.length / 8 := by
  induction bs using decodeDoubles.induct with
  | case1 b0 b1 b2 b3 b4 b5 b6 b7 rest ih =>
      simp [decodeDoubles, ih]
      omega
  | case2 bs h =>
      rw [decodeDoubles]
      · have : bs.length < 8 := by
          rcases bs with _ | ⟨a, _ | ⟨b, _ | ⟨c, _ | ⟨d, _ | ⟨e, _ | ⟨f, _ |
              ⟨g, _ | ⟨hh, t⟩⟩⟩⟩⟩⟩⟩⟩ <;>
            first
              | exact (h _ _ _ _ _ _ _ _ _ rfl).elim
              | simp
        simp [Nat.div_eq_of_lt this]
      · exact h

theorem group6_length (ds : List Nat) :
    (group6 ds).length = ds.length / 6 := by
  induction ds using group6.induct with
  | case1 d x y p xt yt rest ih =>
      simp [group6, ih]
      omega
  | case2 ds h =>
      rw [group6]
      · have : ds.length < 6 := by
          rcases ds with _ | ⟨a, _ | ⟨b, _ | ⟨c, _ | ⟨d, _ | ⟨e, _ | ⟨f, t⟩⟩⟩⟩⟩⟩ <;>
            first
              | exact (h _ _ _ _ _ _ _ rfl).elim
              | simp
        simp [Nat.div_eq_of_lt this]
      · exact h

theorem replayLoop_none (es : List Event) (failAt : Nat → Bool) (i : Nat)
    (h : (replayLoop es failAt i).2 = none) :
    (replayLoop es failAt i).1 = es.map SurfaceCall.stroke_to := by
  induction es generalizing i with
  | nil => rfl
  | cons e es ih =>
      by_cases hf : failAt i
      · simp [replayLoop, hf] at h
      · simp only [replayLoop, hf, if_false, Bool.false_eq_true] at h ⊢
        simp [ih (i + 1) h]

theorem replayLoop_all_false (es : List Event) (i : Nat) :
    replayLoop es (fun _ => false) i
      = (es.map SurfaceCall.stroke_to, none) := by
  induction es generalizing i with
  | nil => rfl
  | cons e es ih => simp [replayLoop, ih]

theorem replayLoop_calls_are_strokes (es : List Event) (failAt : Nat → Bool)
    (i : Nat) :
    ∀ c ∈ (replayLoop es failAt i).1, ∃ e, c = SurfaceCall.stroke_to e := by
  induction es generalizing i with
  | nil => simp [replayLoop]
  | cons e es ih =>
      intro c hc
      by_cases hf : failAt i
      · simp [replayLoop, hf] at hc
      · simp only [replayLoop, hf, if_false, Bool.false_eq_true] at hc
        rcases List.mem_cons.mp hc with h | h
        · exact ⟨e, h⟩
        · exact ih (i + 1) c h

/-- Specification of what `stop_recording` does on a record that is still
recording (the non-early-return branch of lines 52-68). -/
theorem stop_recording_ok (s : StrokeState) (l : List Event) (b : Brush)
    (hf : s.finished = false) (hl : s.tmp_event_list = some l)
    (hb : s.brush = some b) :
    stop_recording s
      = ({ s with
            stroke_data := some (versionTag :: encodeEvents l),
            total_painting_time := some b.total_stroke_painting_time,
            brush := none, tmp_event_list := none, finished := true },
          none) := by
  simp [stop_recording, hf, hl, hb]

/-- Specification of `stop_recording` on an already finished record: the
early return on line 53-54, a no-op. -/
theorem stop_recording_finished (s : StrokeState) (hf : s.finished = true) :
    stop_recording s = (s, none) := by
  simp [stop_recording, hf]

/-! ## Concrete fixtures used by witnesses and counterexamples -/

def cfg0 : String := "brush settings blob 0"

def cfg1 : String := "brush settings blob 1"

def parentName0 : String := "classic/brush"

def parentName1 : String := "experimental/brush"

def dtypeF32 : String := "float32"

def bi0 : BrushInfo := { settings := cfg0, parent_brush_name := parentName0 }

def bi1 : BrushInfo := { settings := cfg1, parent_brush_name := parentName1 }

/-- A brush reporting total painting time `0.0`. -/
def b0 : Brush :=
  { brushinfo := bi0, state := [0, 0], state_dtype := dtypeF32,
    total_stroke_painting_time := 0 }

/-- A brush reporting total painting time `1.0` (bit pattern). -/
def b1 : Brush :=
  { brushinfo := bi0, state := [0, 0], state_dtype := dtypeF32,
    total_stroke_painting_time := 4607182418800017408 }

/-- The all-zero sample (bit patterns of `0.0`). -/
def ev0 : Event :=
  { dtime := 0, x := 0, y := 0, pressure := 0, xtilt := 0, ytilt := 0 }

/-- A sample with pressure `0.5` (bit pattern `0x3FE0000000000000`). -/
def ev1 : Event :=
  { dtime := 0, x := 0, y := 0, pressure := 4602678819172646912,
    xtilt := 0, ytilt := 0 }

/-- The spec's concrete scenario row 2, `(0.01, 1, 1, 0.6, 0, 0)`. -/
def ev2 : Event :=
  { dtime := 4576918229304087675, x := 4607182418800017408,
    y := 4607182418800017408, pressure := 4603579539098121011,
    xtilt := 0, ytilt := 0 }

/-- The spec's concrete scenario row 3, `(0.01, 2, 2, 0.0, 0, 0)`. -/
def ev3 : Event :=
  { dtime := 4576918229304087675, x := 4611686018427387904,
    y := 4611686018427387904, pressure := 0, xtilt := 0, ytilt := 0 }

/-- The spec's concrete three-sample scenario
`(0.0,0,0,0.5,0,0), (0.01,1,1,0.6,0,0), (0.01,2,2,0.0,0,0)`. -/
def strokeSamples3 : List Event := [ev1, ev2, ev3]

/-- A record in the `Recording` state with an empty sample buffer, as left
by `start_recording` on brush `b1`. -/
def sRec : StrokeState :=
  { finished := false, serial_number := 1, serial_attr := 1,
    brush_settings := some cfg0, brush_name := some parentName0,
    brush_state := some [0, 0], brush := some b1,
    tmp_event_list := some ([] : List Event) }

/-- A record in the `Recording` state holding the spec's three samples. -/
def sRec3 : StrokeState :=
  { sRec with tmp_event_list := some strokeSamples3 }

/-- A `Finished` record holding one sample `ev0` and painting time `1.0`. -/
def sFin1 : StrokeState :=
  { finished := true, serial_number := 1, serial_attr := 1,
    brush_settings := some cfg0, brush_name := some parentName0,
    brush_state := some [0, 0],
    stroke_data := some (versionTag :: encodeEvents [ev0]),
    total_painting_time := some 4607182418800017408 }

/-- A `Finished` record with zero samples and painting time `0.0`. -/
def sFin0 : StrokeState :=
  { finished := true, serial_number := 1, serial_attr := 1,
    brush_settings := some cfg0, brush_name := some parentName0,
    brush_state := some [0, 0],
    stroke_data := some [versionTag],
    total_painting_time := some 0 }

/-! ## The claims -/

/-- C1: for every sequence of well-formed samples fed through
`record_event` and finalized by `stop_recording`, decoding the resulting
blob (skip the version byte, read rows of six 64-bit doubles) reproduces
exactly the recorded sequence, in order, bit-exact. -/
theorem C1_record_stop_roundtrip (s : StrokeState) (b : Brush)
    (es : List Event) (hf : s.finished = false)
    (hl : s.tmp_event_list = some ([] : List Event))
    (hb : s.brush = some b) (hwf : ∀ e ∈ es, e.wf) :
    (record_events s es).2 = none ∧
    (stop_recording (record_events s es).1).2 = none ∧
    ((stop_recording (record_events s es).1).1).stroke_data
      = some (versionTag :: encodeEvents es) ∧
    parseStrokeData (versionTag :: encodeEvents es) = Except.ok es := by
  have hr : record_events s es = ({ s with tmp_event_list := some es }, none) := by
    simpa using record_events_ok es s [] hf hl
  have hstop := stop_recording_ok
    { s with tmp_event_list := some es } es b hf (by simp) hb
  rw [hr]
  exact ⟨rfl, by simp [hstop], by simp [hstop], parseStrokeData_encode es hwf⟩

/-- C1 witness: the theorem applied to the concrete recording state `sRec`
and the single sample `ev1`. -/
theorem C1_record_stop_roundtrip_witness :
    (record_events sRec [ev1]).2 = none ∧
    (stop_recording (record_events sRec [ev1]).1).2 = none ∧
    ((stop_recording (record_events sRec [ev1]).1).1).stroke_data
      = some (versionTag :: encodeEvents [ev1]) ∧
    parseStrokeData (versionTag :: encodeEvents [ev1]) = Except.ok [ev1] :=
  C1_record_stop_roundtrip sRec b1 [ev1] rfl rfl rfl (by decide)

/-- C5: `stop_recording` serializes the buffer as exactly one version byte
`'2'` followed by the rows of six doubles each in field order, no padding,
no length prefix, so the blob length is `1 + 48 n`. -/
theorem C5_stop_recording_layout (s : StrokeState) (l : List Event)
    (b : Brush) (hf : s.finished = false) (hl : s.tmp_event_list = some l)
    (hb : s.brush = some b) :
    stop_recording s
      = ({ s with
            stroke_data := some (versionTag :: encodeEvents l),
            total_painting_time := some b.total_stroke_painting_time,
            brush := none, tmp_event_list := none, finished := true },
          none) ∧
    (versionTag :: encodeEvents l).length = 1 + 48 * l.length :=
  ⟨stop_recording_ok s l b hf hl hb, by simp [encodeEvents_length]; omega⟩

set_option maxRecDepth 10000 in
/-- C5 witness: the spec's three-sample scenario; the blob has 145 bytes
and decodes to exactly those three rows. -/
theorem C5_stop_recording_layout_witness :
    stop_recording sRec3
      = ({ sRec3 with
            stroke_data := some (versionTag :: encodeEvents strokeSamples3),
            total_painting_time := some b1.total_stroke_painting_time,
            brush := none, tmp_event_list := none, finished := true },
          none) ∧
    (versionTag :: encodeEvents strokeSamples3).length = 145 ∧
    parseStrokeData (versionTag :: encodeEvents strokeSamples3)
      = Except.ok strokeSamples3 := by
  have h := C5_stop_recording_layout sRec3 strokeSamples3 b1 rfl rfl rfl
  exact ⟨h.1, by rfl, by rfl⟩

/-- C6: calling `record_event` on a `Finished` record raises the
contract-violation error (`AssertionError`) and returns with the record —
every field, the serialized blob included — unchanged. -/
theorem C6_record_event_after_finish (s : StrokeState) (e : Event)
    (hf : s.finished = true) :
    record_event s e = (s, some PyError.assertionError) := by
  simp [record_event, hf]

/-- C6 witness: recording into the concrete finished record `sFin1`. -/
theorem C6_record_event_after_finish_witness :
    record_event sFin1 ev0 = (sFin1, some PyError.assertionError) :=
  C6_record_event_after_finish sFin1 ev0 rfl

/-- C7: `stop_recording` is idempotent: on a finished record it is a
no-op without error, so stopping a recording record twice leaves exactly
the state of stopping it once. -/
theorem C7_stop_recording_idempotent (s t : StrokeState) (l : List Event)
    (b : Brush) (ht : t.finished = true) (hf : s.finished = false)
    (hl : s.tmp_event_list = some l) (hb : s.brush = some b) :
    stop_recording t = (t, none) ∧
    (stop_recording s).2 = none ∧
    stop_recording (stop_recording s).1 = ((stop_recording s).1, none) := by
  have h1 := stop_recording_ok s l b hf hl hb
  refine ⟨stop_recording_finished t ht, by simp [h1], ?_⟩
  rw [h1]
  exact stop_recording_finished _ rfl

/-- C7 witness: stopping the concrete recording record `sRec3` twice, and
stopping the concrete finished record `sFin1`. -/
theorem C7_stop_recording_idempotent_witness :
    stop_recording sFin1 = (sFin1, none) ∧
    (stop_recording sRec3).2 = none ∧
    stop_recording (stop_recording sRec3).1
      = ((stop_recording sRec3).1, none) :=
  C7_stop_recording_idempotent sRec3 sFin1 strokeSamples3 b1 rfl rfl rfl rfl

/-- C8: `copy_using_different_brush` on a `Finished` record returns a new
`Finished` record with the same serialized sample blob, brush internal
state and total painting time, and only the brush settings and parent
brush name replaced from the given configuration; the source record is
taken immutably and not written to. -/
theorem C8_copy_preserves_history (s : StrokeState) (bi : BrushInfo)
    (hf : s.finished = true) :
    ∃ clone : StrokeState,
      copy_using_different_brush s bi = Except.ok clone ∧
      clone.finished = true ∧
      clone.serial_number = s.serial_number ∧
      clone.stroke_data = s.stroke_data ∧
      clone.brush_state = s.brush_state ∧
      clone.total_painting_time = s.total_painting_time ∧
      clone.brush_settings = some bi.settings ∧
      clone.brush_name = some bi.parent_brush_name := by
  refine ⟨{ s with
            brush_settings := some bi.settings,
            brush_name := some bi.parent_brush_name },
    ?_, hf, rfl, rfl, rfl, rfl, rfl, rfl⟩
  simp [copy_using_different_brush, hf]

/-- C8 witness: swapping the concrete finished record `sFin1` to the brush
configuration `bi1`. -/
theorem C8_copy_preserves_history_witness :
    ∃ clone : StrokeState,
      copy_using_different_brush sFin1 bi1 = Except.ok clone ∧
      clone.finished = true ∧
      clone.serial_number = sFin1.serial_number ∧
      clone.stroke_data = sFin1.stroke_data ∧
      clone.brush_state = sFin1.brush_state ∧
      clone.total_painting_time = sFin1.total_painting_time ∧
      clone.brush_settings = some bi1.settings ∧
      clone.brush_name = some bi1.parent_brush_name :=
  C8_copy_preserves_history sFin1 bi1 rfl

/-- C9: `is_empty` returns exactly the Python comparison
`total_painting_time == 0` (true precisely on the two IEEE-754 zero
encodings), so a record finalized with engine-reported time `0.0` is
empty; rendering a zero-sample finished record performs exactly one
`begin_atomic` and one `end_atomic` and no `stroke_to` call, for any
behaviour of the replay engine. -/
theorem C9_empty_record (s : StrokeState) (failAt : Nat → Bool)
    (cfg : String) (st : List Nat) (hf : s.finished = true)
    (hs : s.brush_settings = some cfg) (hst : s.brush_state = some st)
    (hd : s.stroke_data = some [versionTag])
    (ht : s.total_painting_time = some 0) :
    (∀ (u : StrokeState) (tp : Nat), u.total_painting_time = some tp →
      is_empty u = Except.ok (f64EqZero tp)) ∧
    is_empty s = Except.ok true ∧
    render s failAt
      = ([SurfaceCall.begin_atomic, SurfaceCall.end_atomic], none) := by
  refine ⟨fun u tp hu => by simp [is_empty, hu], ?_, ?_⟩
  · simp [is_empty, ht, f64EqZero]
  · simp [render, hf, hs, hst, hd]
    rfl

/-- C9 witness: the concrete zero-sample finished record `sFin0`, rendered
against an engine that would fail every call (no call is made). -/
theorem C9_empty_record_witness :
    (∀ (u : StrokeState) (tp : Nat), u.total_painting_time = some tp →
      is_empty u = Except.ok (f64EqZero tp)) ∧
    is_empty sFin0 = Except.ok true ∧
    render sFin0 (fun _ => true)
      = ([SurfaceCall.begin_atomic, SurfaceCall.end_atomic], none) :=
  C9_empty_record sFin0 (fun _ => true) cfg0 [0, 0] rfl rfl rfl rfl rfl

/-- C10 (implicit): `start_recording` only requires the record not to be
`Finished`; calling it again while already recording succeeds, silently
re-initializes the sample buffer to empty (discarding the samples recorded
so far), and re-captures configuration, parent name and state snapshot
from the newly passed brush. -/
theorem C10_start_recording_restart (s : StrokeState) (b : Brush)
    (l : List Event) (hf : s.finished = false)
    (_hl : s.tmp_event_list = some l) (hd : b.state_dtype = "float32") :
    start_recording s b
      = ({ s with
            brush_settings := some b.brushinfo.settings,
            brush_name := some b.brushinfo.parent_brush_name,
            brush_state := some b.state, brush := some b,
            tmp_event_list := some ([] : List Event) },
          none) := by
  simp [start_recording, hf, hd]

/-- C10 witness: restarting recording on `sRec3`, which already holds
three samples, with the fresh brush `b0`: the buffer comes back empty and
the brush snapshot is `b0`'s. -/
theorem C10_start_recording_restart_witness :
    start_recording sRec3 b0
      = ({ sRec3 with
            brush_settings := some b0.brushinfo.settings,
            brush_name := some b0.brushinfo.parent_brush_name,
            brush_state := some b0.state, brush := some b0,
            tmp_event_list := some ([] : List Event) },
          none) :=
  C10_start_recording_restart sRec3 b0 strokeSamples3 rfl rfl rfl

/-- C3 (evaluation at the failing input): in a fresh process, constructing
two `Stroke` objects gives BOTH of them `serial_number = 1`, because
`self._SERIAL_NUMBER += 1` reads the class attribute (always `0`) and
writes an instance attribute, never the class attribute; the class counter
is unchanged by construction.  The second record's serial number is
therefore not strictly greater than the first's, and serial numbers are
not pairwise distinct. -/
theorem C3_serial_number_never_increments :
    (Stroke.init initClass).1.serial_number = 1 ∧
    (Stroke.init initClass).2 = initClass ∧
    (Stroke.init (Stroke.init initClass).2).1.serial_number = 1 ∧
    ¬ (Stroke.init (Stroke.init initClass).2).1.serial_number
        > (Stroke.init initClass).1.serial_number :=
  ⟨rfl, rfl, rfl, by decide⟩

/-- C2 counterexample: rendering the concrete finished record `sFin1`
against an engine whose first `stroke_to` raises leaves the trace at
`[begin_atomic]` — `begin_atomic` was called but `end_atomic` never was,
so the surface is left with an open atomic region, contrary to the claim
that `end_atomic` runs on every exit path. -/
theorem C2_end_atomic_skipped_on_error :
    render sFin1 (fun _ => true)
      = ([SurfaceCall.begin_atomic], some PyError.engineError) ∧
    SurfaceCall.begin_atomic ∈ (render sFin1 (fun _ => true)).1 ∧
    SurfaceCall.end_atomic ∉ (render sFin1 (fun _ => true)).1 := by
  refine ⟨by rfl, ?_, ?_⟩ <;> decide

/-- C2 as amended: `render` brackets the replay with `begin_atomic` and
`end_atomic` only on the error-free path; when a `stroke_to` call raises,
the exception propagates, the calls made are `begin_atomic` followed by
the successful `stroke_to`s, and `end_atomic` is never called — the
atomic region is left open (there is no try/finally in lines 92-95). -/
theorem C2_atomic_bracketing (s : StrokeState) (failAt : Nat → Bool)
    (cfg : String) (st : List Nat) (blob : List Nat) (events : List Event)
    (hf : s.finished = true) (hs : s.brush_settings = some cfg)
    (hst : s.brush_state = some st) (hd : s.stroke_data = some blob)
    (hp : parseStrokeData blob = Except.ok events) :
    ((replayLoop events failAt 0).2 = none →
      render s failAt
        = (SurfaceCall.begin_atomic :: events.map SurfaceCall.stroke_to
            ++ [SurfaceCall.end_atomic], none)) ∧
    (∀ err, (replayLoop events failAt 0).2 = some err →
      render s failAt
        = (SurfaceCall.begin_atomic :: (replayLoop events failAt 0).1,
            some err) ∧
      SurfaceCall.end_atomic ∉ (render s failAt).1) := by
  constructor
  · intro hnone
    have hcalls := replayLoop_none events failAt 0 hnone
    simp [render, hf, hs, hst, hd, hp, hnone, hcalls]
  · intro err herr
    have hcalls := replayLoop_calls_are_strokes events failAt 0
    have hrend : render s failAt
        = (SurfaceCall.begin_atomic :: (replayLoop events failAt 0).1,
            some err) := by
      simp [render, hf, hs, hst, hd, hp, herr]
    refine ⟨hrend, ?_⟩
    rw [hrend]
    intro hmem
    rcases List.mem_cons.mp hmem with h | h
    · exact SurfaceCall.noConfusion h
    · obtain ⟨e, he⟩ := hcalls _ h
      exact SurfaceCall.noConfusion he

/-- C2 amended witness: the error-free branch on the concrete record
`sFin1` with an engine that never raises: the trace is exactly
`begin_atomic`, the one `stroke_to`, `end_atomic`. -/
theorem C2_atomic_bracketing_witness :
    render sFin1 (fun _ => false)
      = (SurfaceCall.begin_atomic :: [ev0].map SurfaceCall.stroke_to
          ++ [SurfaceCall.end_atomic], none) :=
  (C2_atomic_bracketing sFin1 (fun _ => false) cfg0 [0, 0]
      (versionTag :: encodeEvents [ev0]) [ev0] rfl rfl rfl rfl
      (parseStrokeData_encode [ev0] (by decide))).1 (by rfl)

/-- C4 counterexample: a blob whose first byte is `'3'` (51) makes the
decode in `render` raise `AssertionError` — the very same error class
that contract violations (such as `record_event` on a finished record)
raise, so the format error is NOT distinguishable from the
contract-violation error as the claim requires. -/
theorem C4_version_error_not_distinguishable :
    parseStrokeData (51 :: List.replicate 48 0)
      = Except.error PyError.assertionError ∧
    (record_event sFin1 ev0).2 = some PyError.assertionError ∧
    Except.error (α := List Event) PyError.assertionError
      = Except.error PyError.assertionError := by
  refine ⟨by rfl, by rfl, rfl⟩

/-- C4 as amended: a wrong leading version byte raises the assertion
error (the same class as contract violations, since the code uses a bare
`assert`); a remaining length that is not a multiple of 48 raises a
`ValueError` (a class distinct from the assertion error); and decoding
never silently returns partial data — a successful decode consumes
exactly `48 n` bytes for `n` returned rows. -/
theorem C4_format_rejection (v : Nat) (data : List Nat) :
    (v ≠ versionTag →
      parseStrokeData (v :: data) = Except.error PyError.assertionError) ∧
    (v = versionTag → data.length % 48 ≠ 0 →
      parseStrokeData (v :: data) = Except.error PyError.valueError) ∧
    (∀ es, parseStrokeData (v :: data) = Except.ok es →
      data.length = 48 * es.length) := by
  refine ⟨fun hv => by simp [parseStrokeData, hv], fun hv h48 => ?_, fun es hok => ?_⟩
  · by_cases h8 : data.length % 8 = 0
    · have h6 : (decodeDoubles data).length % 6 ≠ 0 := by
        rw [decodeDoubles_length]
        omega
      simp [parseStrokeData, hv, h8, h6]
    · simp [parseStrokeData, hv, h8]
  · by_cases hv : v = versionTag
    · by_cases h8 : data.length % 8 = 0
      · by_cases h6 : (decodeDoubles data).length % 6 = 0
        · have hes : es = group6 (decodeDoubles data) := by
            rw [parseStrokeData] at hok
            simp [hv, h8, h6] at hok
            exact hok.symm
          have hlen : es.length = (decodeDoubles data).length / 6 := by
            rw [hes, group6_length]
          have hdl := decodeDoubles_length data
          omega
        · rw [parseStrokeData] at hok
          simp [hv, h8, h6] at hok
      · rw [parseStrokeData] at hok
        simp [hv, h8] at hok
    · rw [parseStrokeData] at hok
      simp [hv] at hok

/-- C4 amended witness: the version byte is right but 47 bytes follow
(not a multiple of 48): decode raises the `ValueError` class. -/
theorem C4_format_rejection_witness :
    parseStrokeData (versionTag :: List.replicate 47 0)
      = Except.error PyError.valueError :=
  (C4_format_rejection versionTag (List.replicate 47 0)).2.1 rfl (by decide)

end MyPaintStroke
